import Mathlib

/-!
Verification development for the anxiety-support conversation core of the
Tranquiloo application.  The definitions below are a shallow embedding of the
message-analysis pipeline: the server-side fallback anxiety classifier
(registerRoutes, endpoint /api/analyze-anxiety-claude), the client-side
conversion and validation of the server payload (analyzeAnxietyWithClaude),
the analysis orchestrator (useAnxietyAnalysis.analyzeMessage), the crisis
escalation gate and its rolling window (ChatContainer), the per-conversation
send queue (useChat.handleSendMessage), and the forgot-password endpoint.
-/

namespace Tranquiloo

/-- Lowercase a string character by character; this mirrors the effect of
JavaScript toLowerCase on the ASCII keyword alphabets used by the code. -/
def lowerStr (s : String) : String :=
  String.mk (s.data.map Char.toLower)

/-- Boolean test that the first character list is an initial segment of the
second. -/
def leadsList : List Char → List Char → Bool
  | [], _ => true
  | _ :: _, [] => false
  | a :: as, b :: bs => a == b && leadsList as bs

/-- Boolean substring test on character lists, mirroring JavaScript
String.prototype.includes. -/
def containsList (needle : List Char) : List Char → Bool
  | [] => needle.isEmpty
  | b :: bs => leadsList needle (b :: bs) || containsList needle bs

/-- JavaScript hay.includes(needle). -/
def strContains (hay needle : String) : Bool :=
  containsList needle.data hay.data

/-- Anxiety keyword list of the server fallback analysis. -/
def anxietyKeywords : List String :=
  ["anxious", "worry", "worried", "stress", "stressed", "panic", "fear", "scared",
   "overwhelmed", "nervous", "tense", "restless", "uneasy", "troubled", "disturbed"]

/-- PTSD keyword list of the server fallback analysis. -/
def ptsdKeywords : List String :=
  ["trauma", "flashback", "nightmare", "trigger", "ptsd", "veteran", "assault", "accident"]

/-- OCD keyword list of the server fallback analysis. -/
def ocdKeywords : List String :=
  ["ocd", "obsessive", "compulsive", "contamination", "checking", "counting", "intrusive", "ritual"]

/-- Panic keyword list of the server fallback analysis. -/
def panicKeywords : List String :=
  ["panic", "heart racing", "can\x27t breathe", "chest pain", "dying", "losing control"]

/-- Hallucination and psychosis indicator keyword list of the server fallback
analysis. -/
def hallucinationKeywords : List String :=
  ["seeing things", "hearing voices", "voices", "talking to me", "watching me", "following me",
   "agents", "spies", "mossad", "cia", "fbi", "conspiracy", "after me",
   "dogs talking", "animals talking", "things moving", "gaza", "war", "firing"]

/-- Some keyword of the list occurs in the lowercased message. -/
def anyKeywordIn (lm : String) (ks : List String) : Bool :=
  ks.any (fun k => strContains lm k)

/-- Number of anxiety keywords occurring in the lowercased message. -/
def anxietyIndicatorCount (lm : String) : Nat :=
  (anxietyKeywords.filter (fun k => strContains lm k)).length

/-- The hasViolentThoughts test of the server fallback analysis. -/
def hasViolentThoughts (lm : String) : Bool :=
  strContains lm "hurt" || strContains lm "kill" || strContains lm "die"

/-- The hasDepressionKeywords test of the server fallback analysis. -/
def hasDepressionKeywords (lm : String) : Bool :=
  strContains lm "depressed" || strContains lm "sad" || strContains lm "hopeless"

/-- The hasRelationshipIssues test of the server fallback analysis. -/
def hasRelationshipIssues (lm : String) : Bool :=
  strContains lm "wife" || strContains lm "husband" || strContains lm "partner" || strContains lm "cheat"

/-- The hasHallucinationIndicators test of the server fallback analysis. -/
def hasHallucinationIndicators (lm : String) : Bool :=
  anyKeywordIn lm hallucinationKeywords

/-- The hasPTSDIndicators test of the server fallback analysis. -/
def hasPTSDIndicators (lm : String) : Bool :=
  anyKeywordIn lm ptsdKeywords

/-- The hasOCDIndicators test of the server fallback analysis. -/
def hasOCDIndicators (lm : String) : Bool :=
  anyKeywordIn lm ocdKeywords

/-- The hasPanicIndicators test of the server fallback analysis. -/
def hasPanicIndicators (lm : String) : Bool :=
  anyKeywordIn lm panicKeywords

/-- The anxietyLevel of the server fallback analysis after the keyword count
(min(3 + indicators * 2, 10)) and the panic/overwhelming boost to at least 7. -/
def levelAfterBoost (lm : String) : Int :=
  if strContains lm "panic" || strContains lm "overwhelming" then
    max (min (3 + (anxietyIndicatorCount lm : Int) * 2) 10) 7
  else min (3 + (anxietyIndicatorCount lm : Int) * 2) 10

/-- The anxietyLevel of the server fallback analysis after the hallucination,
violent-thought and depression overrides. -/
def levelAfterOverrides (lm : String) : Int :=
  if hasHallucinationIndicators lm then 10
  else if hasViolentThoughts lm then max (levelAfterBoost lm) 8
  else if hasDepressionKeywords lm then max (levelAfterBoost lm) 6
  else levelAfterBoost lm

/-- Severity branches of the server fallback analysis, one per arm of its
if/else chain, plus the default arm. -/
inductive Category where
  | hallucination
  | panicAttack
  | ptsd
  | ocd
  | violent
  | grief
  | gad
  | stress
  | sadness
  | anxious
  | insomnia
  | noMatch
deriving DecidableEq

/-- Branch selected by the if/else chain of the server fallback analysis, in
source order.  The argument is the lowercased message. -/
def fallbackCategory (lm : String) : Category :=
  if hasHallucinationIndicators lm then Category.hallucination
  else if hasPanicIndicators lm then Category.panicAttack
  else if hasPTSDIndicators lm then Category.ptsd
  else if hasOCDIndicators lm then Category.ocd
  else if hasViolentThoughts lm then Category.violent
  else if hasRelationshipIssues lm && hasDepressionKeywords lm then Category.grief
  else if strContains lm "generalized anxiety" || strContains lm "gad" || strContains lm "worry about everything" then Category.gad
  else if 6 < levelAfterOverrides lm then Category.stress
  else if strContains lm "sad" || strContains lm "depression" then Category.sadness
  else if strContains lm "anxious" || strContains lm "anxiety" || strContains lm "worried" then Category.anxious
  else if strContains lm "can\x27t sleep" || strContains lm "insomnia" then Category.insomnia
  else Category.noMatch

/-- Shape of the JSON object the server endpoint returns. -/
structure ServerAnalysis where
  anxietyLevel : Int
  triggers : List String
  copingStrategies : List String
  personalizedResponse : String
deriving DecidableEq

/-- The four rotated default replies of the server fallback analysis. -/
def defaultResponses : List String :=
  ["I\x27m here. What\x27s on your mind today?",
   "Thanks for reaching out. What\x27s happening?",
   "I\x27m listening. Tell me what you\x27re feeling.",
   "You\x27re not alone. What\x27s going on?"]

/-- The server fallback anxiety analysis (endpoint /api/analyze-anxiety-claude,
local fallback branch), with its if/else chain factored through
fallbackCategory.  The parameter r models the Math.random draw used only by
the default branch. -/
def fallbackAnalysis (message : String) (r : Nat) : ServerAnalysis :=
  let lm := lowerStr message
  match fallbackCategory lm with
  | Category.hallucination =>
      { anxietyLevel := 10
        triggers := ["Paranoia", "Fear", "Crisis"]
        copingStrategies :=
          ["Name 5 things you see RIGHT NOW",
           "Splash cold water on face or hold ice",
           "Call 988 or go to ER immediately",
           "Stay with someone trusted"]
        personalizedResponse := "Right now: Look around and name 5 things you can see. Touch something cold - ice or cold water on your face. Breathe slowly: in for 4, out for 6. If this continues, call 988 immediately." }
  | Category.panicAttack =>
      { anxietyLevel := 8
        triggers := ["Panic attack", "Acute anxiety"]
        copingStrategies :=
          ["Square breathing: 4-4-4-4 pattern",
           "Ice cube on wrist or neck",
           "Count backwards from 100 by 7s",
           "This WILL pass in 10-20 minutes"]
        personalizedResponse := "This is panic, not danger. Breathe: in for 4, hold for 4, out for 6. Five times. Place hand on chest - you\x27re okay. This will pass in 10-20 minutes." }
  | Category.ptsd =>
      { anxietyLevel := 7
        triggers := ["PTSD", "Trauma response", "Flashback"]
        copingStrategies :=
          ["5-4-3-2-1 grounding NOW",
           "Smell something strong (coffee, essential oil)",
           "Bilateral stimulation: tap shoulders alternately",
           "Remind yourself: \"That was then, this is now\""]
        personalizedResponse := "You\x27re having a trauma response. You\x27re safe now. Ground yourself: 5 things you see, 4 you hear, 3 you touch. The flashback will pass." }
  | Category.ocd =>
      { anxietyLevel := 6
        triggers := ["OCD", "Intrusive thoughts", "Compulsions"]
        copingStrategies :=
          ["Delay the ritual by 5 minutes",
           "Write the thought down, then close the notebook",
           "Do opposite action (if checking, walk away)",
           "Remember: thoughts are not facts"]
        personalizedResponse := "OCD is loud right now. Don\x27t do the compulsion. Set a 5-minute timer - sit with the discomfort. The urge will peak and fade. You can handle this." }
  | Category.violent =>
      { anxietyLevel := levelAfterOverrides lm
        triggers := ["Crisis", "Severe distress", "Danger"]
        copingStrategies :=
          ["Leave the room immediately",
           "Count 10 breaths out loud",
           "Call 988 now or text HOME to 741741",
           "Go for a walk outside"]
        personalizedResponse := "Your pain is real. Right now: Step outside or to another room. Take 10 deep breaths, count them out loud. Then call 988 - they\x27re available 24/7 to help you through this safely." }
  | Category.grief =>
      { anxietyLevel := levelAfterOverrides lm
        triggers := ["Betrayal", "Loss", "Grief"]
        copingStrategies :=
          ["Breathe: 4-4-6 pattern, 5 times",
           "Call one trusted friend now",
           "Write your feelings for 10 minutes",
           "Take care of basics: eat, sleep, shower"]
        personalizedResponse := "This betrayal is devastating. Right now, breathe: in for 4, hold for 4, out for 6. Do this 5 times. Then call one person who cares about you. This intense pain will ease with time." }
  | Category.gad =>
      { anxietyLevel := 6
        triggers := ["GAD", "Chronic worry", "Anxiety"]
        copingStrategies :=
          ["Worry time: set 15 min to worry, then stop",
           "Progressive muscle relaxation",
           "Challenge thoughts: \"Is this likely?\"",
           "Focus on ONE task for next hour"]
        personalizedResponse := "Constant worry is exhausting. Right now: write down your top 3 worries. Circle what you can control today. Start with the smallest one." }
  | Category.stress =>
      { anxietyLevel := levelAfterOverrides lm
        triggers := ["Stress", "Overwhelm"]
        copingStrategies :=
          ["Breathe: 4-4-6, three times", "Walk for 5 minutes", "Call a friend", "Write it out"]
        personalizedResponse := "You\x27re dealing with something heavy. Let\x27s breathe together: in for 4, hold for 4, out for 6. Do this 3 times. Then tell me what\x27s happening." }
  | Category.sadness =>
      { anxietyLevel := 5
        triggers := ["Sadness", "Low mood"]
        copingStrategies :=
          ["One small act of self-care now",
           "Walk outside for 5 minutes",
           "Text someone you trust",
           "Let yourself cry if you need to"]
        personalizedResponse := "I hear your sadness. It\x27s okay to feel this way. Right now, do one kind thing for yourself - maybe a cup of tea or step outside for fresh air. What\x27s making you sad?" }
  | Category.anxious =>
      { anxietyLevel := 6
        triggers := ["Anxiety", "Worry"]
        copingStrategies :=
          ["4-7-8 breathing, 3 times",
           "Name 5 things you see",
           "Walk around the room",
           "Hold ice or cold water"]
        personalizedResponse := "Anxiety is tough. Right now: breathe in for 4, hold for 7, out for 8. Do this 3 times. Then name 5 things you can see. This will help calm your nervous system." }
  | Category.insomnia =>
      { anxietyLevel := 5
        triggers := ["Insomnia", "Sleep anxiety"]
        copingStrategies :=
          ["4-7-8 breathing in bed",
           "Progressive muscle relaxation",
           "Write worries on paper, leave by bed",
           "Cool room, warm feet"]
        personalizedResponse := "Racing mind at night is hard. Try 4-7-8 breathing five times. Then do a body scan: tense and release each muscle group. No screens for next hour." }
  | Category.noMatch =>
      { anxietyLevel := levelAfterOverrides lm
        triggers := if 0 < anxietyIndicatorCount lm then ["Stress"] else []
        copingStrategies := ["Deep breathing", "Take a walk", "Call someone", "Self-care"]
        personalizedResponse := defaultResponses.getD (r % 4) "" }

/-- Severity precedence exactly as the specification lists it: the same
predicates in the same order as fallbackCategory but without the
high-keyword-score stress branch, which the specification omits. -/
def claimedCategory (lm : String) : Category :=
  if hasHallucinationIndicators lm then Category.hallucination
  else if hasPanicIndicators lm then Category.panicAttack
  else if hasPTSDIndicators lm then Category.ptsd
  else if hasOCDIndicators lm then Category.ocd
  else if hasViolentThoughts lm then Category.violent
  else if hasRelationshipIssues lm && hasDepressionKeywords lm then Category.grief
  else if strContains lm "generalized anxiety" || strContains lm "gad" || strContains lm "worry about everything" then Category.gad
  else if strContains lm "sad" || strContains lm "depression" then Category.sadness
  else if strContains lm "anxious" || strContains lm "anxiety" || strContains lm "worried" then Category.anxious
  else if strContains lm "can\x27t sleep" || strContains lm "insomnia" then Category.insomnia
  else Category.noMatch

/-- Ordered category predicates of the fallback classifier, one entry per arm
of the source if/else chain, including the high-keyword-score stress branch
the code places between generalized worry and sadness. -/
def categoryPredicates : List (Category × (String → Bool)) :=
  [(Category.hallucination, fun lm => hasHallucinationIndicators lm),
   (Category.panicAttack, fun lm => hasPanicIndicators lm),
   (Category.ptsd, fun lm => hasPTSDIndicators lm),
   (Category.ocd, fun lm => hasOCDIndicators lm),
   (Category.violent, fun lm => hasViolentThoughts lm),
   (Category.grief, fun lm => hasRelationshipIssues lm && hasDepressionKeywords lm),
   (Category.gad, fun lm => strContains lm "generalized anxiety" || strContains lm "gad" || strContains lm "worry about everything"),
   (Category.stress, fun lm => decide (6 < levelAfterOverrides lm)),
   (Category.sadness, fun lm => strContains lm "sad" || strContains lm "depression"),
   (Category.anxious, fun lm => strContains lm "anxious" || strContains lm "anxiety" || strContains lm "worried"),
   (Category.insomnia, fun lm => strContains lm "can\x27t sleep" || strContains lm "insomnia")]

/-- First-match evaluation of an ordered predicate list; no match selects the
default arm. -/
def firstMatch (lm : String) : List (Category × (String → Bool)) → Category
  | [] => Category.noMatch
  | p :: rest => if p.2 lm then p.1 else firstMatch lm rest

/-- Crisis risk tiers. -/
inductive Risk where
  | low
  | moderate
  | high
  | critical
deriving DecidableEq

/-- Relevant fields of the JSON payload the client receives from the server
endpoint; an absent field is none. -/
structure ServerData where
  errorField : Option String := none
  anxietyLevel : Option Int := none
  triggers : Option (List String) := none
  copingStrategies : Option (List String) := none
  personalizedResponse : Option String := none
deriving DecidableEq

/-- JavaScript v || d for a possibly absent number: undefined and 0 are falsy. -/
def jsOrInt (v : Option Int) (d : Int) : Int :=
  match v with
  | none => d
  | some n => if n = 0 then d else n

/-- JavaScript v || d for a possibly absent string: undefined and the empty
string are falsy. -/
def jsOrStr (v : Option String) (d : String) : String :=
  match v with
  | none => d
  | some s => if s = "" then d else s

/-- JavaScript v || d for a possibly absent array: only undefined is falsy. -/
def jsOrList (v : Option (List String)) (d : List String) : List String :=
  v.getD d

/-- The ClaudeAnxietyAnalysis record built by the client utility
claudeAnxietyAnalysis; fields no claim needs (GAD-7 score, Beck and DSM-5
lists, distortions, therapy approach, sentiment) are omitted. -/
structure ClaudeAnalysis where
  anxietyLevel : Int
  triggers : List String
  recommendedInterventions : List String
  crisisRiskLevel : Risk
  escalationDetected : Bool
  personalizedResponse : String
deriving DecidableEq

/-- The conversion of the server payload into a ClaudeAnxietyAnalysis
(analyzeAnxietyWithClaude, conversion block): the crisis tier and escalation
flag are derived from the anxiety level. -/
def convertAnalysis (data : ServerData) : ClaudeAnalysis :=
  let a := jsOrInt data.anxietyLevel 5
  { anxietyLevel := a
    triggers := jsOrList data.triggers []
    recommendedInterventions := jsOrList data.copingStrategies []
    crisisRiskLevel := if 8 < a then Risk.high else if 6 < a then Risk.moderate else Risk.low
    escalationDetected := decide (8 < a)
    personalizedResponse := jsOrStr data.personalizedResponse "I\x27m here to support you through this." }

/-- The JSON round trip of a server fallback result: res.json on the server,
response.json on the client; every field arrives present and no error field
is set. -/
def serverDataOf (sa : ServerAnalysis) : ServerData :=
  { errorField := none
    anxietyLevel := some sa.anxietyLevel
    triggers := some sa.triggers
    copingStrategies := some sa.copingStrategies
    personalizedResponse := some sa.personalizedResponse }

/-- Conversion followed by the personalized-response validation of
analyzeAnxietyWithClaude: a response that is empty or shorter than 10
characters is rejected. -/
def convertAndValidate (data : ServerData) : Except String ClaudeAnalysis :=
  let a := convertAnalysis data
  if a.personalizedResponse.length < 10 then Except.error "Claude API unavailable"
  else Except.ok a

/-- The client remote-analysis call analyzeAnxietyWithClaude as a function of
the fetch outcome: error models a transport failure, a non-ok status or an
absent body, ok data a parsed JSON body.  A truthy data.error field and the
response validation both raise; every raise is caught and rethrown as the
single failure value. -/
def analyzeAnxietyWithClaude (fetched : Except String ServerData) : Except String ClaudeAnalysis :=
  match fetched with
  | Except.error _ => Except.error "Claude API unavailable"
  | Except.ok data =>
      match data.errorField with
      | some e => if e = "" then convertAndValidate data else Except.error "Claude API unavailable"
      | none => convertAndValidate data

/-- Provenance tag attached by the orchestrator. -/
inductive Provenance where
  | claude
  | fallback
deriving DecidableEq

/-- Assessment plus provenance, as returned by analyzeMessage. -/
structure TaggedAnalysis where
  analysis : ClaudeAnalysis
  source : Provenance
deriving DecidableEq

/-- The generic placeholder response that analyzeMessage treats as a failed
remote analysis. -/
def genericPlaceholder : String :=
  "I\x27m here to support you through this difficult time. Let\x27s work together to help you feel better."

/-- The orchestrator useAnxietyAnalysis.analyzeMessage with exceptions
explicit: the remote result must be non-empty and differ from the generic
placeholder, any raise inside the inner try being caught and answered with
the local fallback classifier result.  That result is supplied as the
argument fallbackResult because the module utils/anxiety/fallbackAnalysis is
not among the sources under verification; the claims only need that the
fallback value is returned tagged fallback.  The outer try has no catch
clause, so an uncaught raise would surface to the caller. -/
def analyzeMessage (fetched : Except String ServerData) (fallbackResult : ClaudeAnalysis) :
    Except String TaggedAnalysis :=
  match (match analyzeAnxietyWithClaude fetched with
         | Except.error e => Except.error e
         | Except.ok a =>
             if a.personalizedResponse ≠ "" ∧ a.personalizedResponse ≠ genericPlaceholder then
               Except.ok a
             else Except.error "Claude returned generic fallback") with
  | Except.ok a => Except.ok { analysis := a, source := Provenance.claude }
  | Except.error _ => Except.ok { analysis := fallbackResult, source := Provenance.fallback }

/-- The remote analysis failed: transport or server failure, rejected
payload, or a response judged empty or generic by the orchestrator. -/
def remoteFailed (fetched : Except String ServerData) : Bool :=
  match analyzeAnxietyWithClaude fetched with
  | Except.error _ => true
  | Except.ok a => a.personalizedResponse == "" || a.personalizedResponse == genericPlaceholder

/-- Modelled from the spec: the escalation gate module utils/escalation
imported by ChatContainer is not among the sources under verification; the
spec requires escalation on an explicit crisis/self-harm keyword in the raw
text, and this list realizes that wording. -/
def crisisKeywords : List String :=
  ["suicide", "kill myself", "end my life", "hurt myself", "self-harm", "want to die"]

/-- The raw text contains an explicit crisis/self-harm keyword (lowercased
scan). -/
def hasCrisisKeyword (text : String) : Bool :=
  anyKeywordIn (lowerStr text) crisisKeywords

/-- Modelled from the spec: shouldEscalate (utils/escalation is not among the
sources under verification).  Per spec section 4.4 the gate escalates when
any of: the text contains an explicit crisis keyword, the latest assessment
carries crisis risk high or critical, or the rolling count of recent
high-anxiety assessments is at least 2. -/
def shouldEscalate (text : String) (latest : Option ClaudeAnalysis) (recentHighCount : Nat) : Bool :=
  hasCrisisKeyword text
    || (match latest with
        | some a => decide (a.crisisRiskLevel = Risk.high) || decide (a.crisisRiskLevel = Risk.critical)
        | none => false)
    || decide (2 ≤ recentHighCount)

/-- The recentHighAnxietyCount memo of ChatContainer: among the first five
entries of the allAnalyses array, the number with anxiety level at least 8. -/
def recentHighAnxietyCount (allAnalyses : List ClaudeAnalysis) : Nat :=
  ((allAnalyses.take 5).filter (fun a => decide (8 ≤ a.anxietyLevel))).length

/-- Modelled from the spec: the hook useAvatarEmotions, which supplies the
allAnalyses array to ChatContainer, is not among the sources under
verification.  Per the spec (the rolling window is the most recent five
assessments) and the local name last5 in ChatContainer, allAnalyses presents
the assessments most recent first; the argument is the oldest-first list
accumulated by useAnxietyAnalysis. -/
def allAnalysesModel (chronological : List ClaudeAnalysis) : List ClaudeAnalysis :=
  chronological.reverse

/-- Message sender. -/
inductive SenderKind where
  | user
  | assistant
deriving DecidableEq

/-- A conversation message. -/
structure ChatMsg where
  sender : SenderKind
  text : String
deriving DecidableEq

/-- Per-conversation state of useChat: the processing flag, the
messageQueueRef backlog, the lastMessageRef debounce value, the
pendingMessagesRef keys (texts only, the session being fixed), and the
ordered message list. -/
structure ChatState where
  processing : Bool
  queue : List String
  lastMessage : String
  pending : List String
  messages : List ChatMsg
deriving DecidableEq

/-- The admission portion of useChat.handleSendMessage: empty input returns;
a submission while processing returns, and nothing is pushed onto the
backlog; a text equal to lastMessageRef or already pending returns;
otherwise the user message is appended, the debounce and pending marks are
set and processing starts.  The companion-switch branch (guarded by
shouldSwitchToMonica, whose module is not among the sources under
verification) is modelled as not taken. -/
def submit (s : ChatState) (text : String) : ChatState :=
  if text = "" then s
  else if s.processing then s
  else if s.lastMessage = text then s
  else if s.pending.contains text then s
  else { s with
         processing := true
         lastMessage := text
         pending := text :: s.pending
         messages := s.messages ++ [{ sender := SenderKind.user, text := text }] }

/-- Completion of one handleSendMessage run: the assistant reply is appended,
the finally block clears the processing flag and, when the backlog is
non-empty, shifts one entry and resubmits it.  The two-second debounce reset
scheduled there runs later and is modelled by debounceReset. -/
def complete (s : ChatState) (reply : String) : ChatState :=
  let s1 : ChatState :=
    { s with
      messages := s.messages ++ [{ sender := SenderKind.assistant, text := reply }]
      processing := false }
  match s1.queue with
  | [] => s1
  | h :: t => submit { s1 with queue := t } h

/-- The delayed clears scheduled in the finally block of handleSendMessage:
after two seconds lastMessageRef and the pending mark of the text are reset. -/
def debounceReset (s : ChatState) (text : String) : ChatState :=
  { s with lastMessage := "", pending := s.pending.filter (fun t => t != text) }

/-- Number of user messages carrying the given text. -/
def userMsgCount (text : String) (msgs : List ChatMsg) : Nat :=
  (msgs.filter (fun m => m.sender == SenderKind.user && m.text == text)).length

/-- Outcome of the storage operations the forgot-password endpoint performs:
the profile lookup result (assumed not to raise) and whether the reset-token
write and the email-notification write succeed. -/
structure ForgotStore where
  profile : Option Nat
  setTokenOk : Bool
  emailOk : Bool

/-- HTTP response summary: status code plus the success flag, message text
and error code of the JSON body. -/
structure HttpReply where
  status : Nat
  success : Bool
  message : Option String
  errorCode : Option String
deriving DecidableEq

/-- The account-neutral success message of the forgot-password endpoint. -/
def resetSentMsg : String :=
  "If an account with this email exists, a password reset link has been sent."

/-- The forgot-password endpoint (registerRoutes, /api/auth/forgot-password):
a missing email gives 400; an unknown email answers success with the neutral
message; a known email writes a reset token and an email notification, a
failure of either being caught by the surrounding try and answered with 500;
otherwise the same neutral success message is returned.  The generated token
and the email body do not influence the HTTP response and are omitted. -/
def forgotPassword (email : String) (st : ForgotStore) : HttpReply :=
  if email = "" then
    { status := 400, success := false, message := none, errorCode := some "MISSING_EMAIL" }
  else
    match st.profile with
    | none => { status := 200, success := true, message := some resetSentMsg, errorCode := none }
    | some _ =>
        if st.setTokenOk then
          if st.emailOk then
            { status := 200, success := true, message := some resetSentMsg, errorCode := none }
          else { status := 500, success := false, message := none, errorCode := some "SERVER_ERROR" }
        else { status := 500, success := false, message := none, errorCode := some "SERVER_ERROR" }

/-- A conversation state with no history: idle, empty backlog, no debounce
mark, nothing pending, no messages. -/
def idleState : ChatState :=
  { processing := false, queue := [], lastMessage := "", pending := [], messages := [] }

/-! Helper lemmas about the fallback level computation. -/

theorem levelAfterBoost_bounds (lm : String) :
    3 ≤ levelAfterBoost lm ∧ levelAfterBoost lm ≤ 10 := by
  have hk : (0 : Int) ≤ (anxietyIndicatorCount lm : Int) := Int.natCast_nonneg _
  unfold levelAfterBoost
  rcases min_cases (3 + (anxietyIndicatorCount lm : Int) * 2) 10 with ⟨h1, h2⟩ | ⟨h1, h2⟩ <;>
    rcases max_cases (min (3 + (anxietyIndicatorCount lm : Int) * 2) 10) 7 with ⟨h3, h4⟩ | ⟨h3, h4⟩ <;>
    split <;> omega

theorem levelAfterOverrides_bounds (lm : String) :
    3 ≤ levelAfterOverrides lm ∧ levelAfterOverrides lm ≤ 10 := by
  have hb := levelAfterBoost_bounds lm
  unfold levelAfterOverrides
  rcases max_cases (levelAfterBoost lm) 8 with ⟨h1, h2⟩ | ⟨h1, h2⟩ <;>
    rcases max_cases (levelAfterBoost lm) 6 with ⟨h3, h4⟩ | ⟨h3, h4⟩ <;>
    split_ifs <;> omega

theorem fallbackAnalysis_level_bounds (msg : String) (r : Nat) :
    3 ≤ (fallbackAnalysis msg r).anxietyLevel ∧ (fallbackAnalysis msg r).anxietyLevel ≤ 10 := by
  have h := levelAfterOverrides_bounds (lowerStr msg)
  unfold fallbackAnalysis
  cases hc : fallbackCategory (lowerStr msg) <;> simp [hc] <;> omega

theorem fallbackCategory_hallucination {lm : String}
    (h : hasHallucinationIndicators lm = true) :
    fallbackCategory lm = Category.hallucination := by
  unfold fallbackCategory
  simp [h]

/-- Claim C3: the recentHighAnxietyCount value equals the number of
assessments with anxiety level at least 8 among the five most recent
assessments of the conversation, where the chronological history is the
oldest-first accumulation. -/
theorem recentHighCount_counts_last_five (hist : List ClaudeAnalysis) :
    recentHighAnxietyCount (allAnalysesModel hist) =
      ((hist.drop (hist.length - 5)).filter (fun a => decide (8 ≤ a.anxietyLevel))).length := by
  unfold recentHighAnxietyCount allAnalysesModel
  rw [List.take_reverse, List.filter_reverse, List.length_reverse]

/-- Claim C5 is false as stated: with identical text and history the
fallback classifier output still depends on the pseudo-random draw of its
default branch, so two calls need not be byte-identical. -/
theorem classify_not_pure_cex :
    fallbackAnalysis "hello" 0 ≠ fallbackAnalysis "hello" 1 := by
  decide

/-- Claim C5 (amended): the fallback classifier is deterministic in
(text, history) except for the personalized response of the no-match default
branch; the anxiety level, triggers and coping strategies never depend on the
pseudo-random draw, and on any input matching a recognized category the whole
output is draw-independent. -/
theorem classify_deterministic_outside_default (msg : String) (r₁ r₂ : Nat) :
    (fallbackAnalysis msg r₁).anxietyLevel = (fallbackAnalysis msg r₂).anxietyLevel ∧
    (fallbackAnalysis msg r₁).triggers = (fallbackAnalysis msg r₂).triggers ∧
    (fallbackAnalysis msg r₁).copingStrategies = (fallbackAnalysis msg r₂).copingStrategies ∧
    (fallbackCategory (lowerStr msg) ≠ Category.noMatch →
      fallbackAnalysis msg r₁ = fallbackAnalysis msg r₂) := by
  unfold fallbackAnalysis
  cases hc : fallbackCategory (lowerStr msg) <;> simp [hc]

/-- Witness for the amended C5 at a concrete panic-category input. -/
theorem classify_deterministic_outside_default_witness :
    fallbackAnalysis "I feel a panic attack coming" 0 = fallbackAnalysis "I feel a panic attack coming" 1 :=
  (classify_deterministic_outside_default "I feel a panic attack coming" 0 1).2.2.2 (by decide)

/-- Claim C6 is false as stated: at the input below the code selects the
high-keyword-score stress branch, which the claimed precedence list omits;
that list would select the general anxiety branch. -/
theorem severity_precedence_cex :
    fallbackCategory (lowerStr "worried stressed nervous scared") = Category.stress ∧
    claimedCategory (lowerStr "worried stressed nervous scared") = Category.anxious ∧
    Category.stress ≠ Category.anxious :=
  ⟨rfl, rfl, by decide⟩

/-- Claim C6 (amended): the fallback classifier selects its severity branch
by first match over the source's fixed precedence, which inserts a
high-keyword-score stress branch between generalized worry and sadness; no
later branch fires when an earlier one matches. -/
theorem severity_precedence_first_match (lm : String) :
    fallbackCategory lm = firstMatch lm categoryPredicates := by
  simp only [fallbackCategory, firstMatch, categoryPredicates, decide_eq_true_eq]

/-- Claim C7: submitting B and C while A is still processing leaves the
backlog empty and the state unchanged — the code drops rapid messages
instead of enqueueing them, so the FIFO drain never has work. -/
theorem rapid_messages_dropped_not_queued :
    submit (submit (submit idleState "A") "B") "C" = submit idleState "A" ∧
    (submit (submit (submit idleState "A") "B") "C").queue = [] ∧
    (submit (submit (submit idleState "A") "B") "C").messages =
      [{ sender := SenderKind.user, text := "A" }] := by
  decide

/-- Claim C10 is false as stated: with the profile lookup succeeding in both
runs, the account-exists run can still answer 500 when the reset-token write
fails, which the account-absent run never does. -/
theorem forgot_password_distinguishable_cex :
    forgotPassword "user@example.com" { profile := none, setTokenOk := true, emailOk := true } ≠
      forgotPassword "user@example.com" { profile := some 1, setTokenOk := false, emailOk := true } := by
  decide

/-- Claim C10 (amended): when no storage operation of the endpoint errors
(profile lookup, reset-token write, email-notification write), the HTTP
response is identical whether or not an account exists for the email. -/
theorem forgot_password_uniform_response (email : String) (p : Nat) (a b : Bool) :
    forgotPassword email { profile := none, setTokenOk := a, emailOk := b } =
      forgotPassword email { profile := some p, setTokenOk := true, emailOk := true } := by
  unfold forgotPassword
  by_cases he : email = "" <;> simp [he]

/-- Claim C1 is false as stated: the message "hearing voices" hits a
hallucination indicator, but the crisis tier the client derives from the
resulting level-10 payload is high, not critical. -/
theorem hallucination_tier_cex :
    hasHallucinationIndicators (lowerStr "hearing voices") = true ∧
    (convertAnalysis (serverDataOf (fallbackAnalysis "hearing voices" 0))).crisisRiskLevel ≠ Risk.critical ∧
    (convertAnalysis (serverDataOf (fallbackAnalysis "hearing voices" 0))).crisisRiskLevel = Risk.high := by
  decide

/-- Claim C1 (amended): for any text containing a hallucination indicator the
fallback classifier returns anxiety level 10, the client conversion derives
crisis tier high, and the escalation gate fires regardless of the rolling
count. -/
theorem hallucination_crisis_path (msg : String) (r : Nat)
    (h : hasHallucinationIndicators (lowerStr msg) = true) :
    (fallbackAnalysis msg r).anxietyLevel = 10 ∧
    (convertAnalysis (serverDataOf (fallbackAnalysis msg r))).crisisRiskLevel = Risk.high ∧
    ∀ c : Nat, shouldEscalate msg (some (convertAnalysis (serverDataOf (fallbackAnalysis msg r)))) c = true := by
  have hcat := fallbackCategory_hallucination h
  have hlvl : (fallbackAnalysis msg r).anxietyLevel = 10 := by
    unfold fallbackAnalysis
    simp [hcat]
  have hrisk : (convertAnalysis (serverDataOf (fallbackAnalysis msg r))).crisisRiskLevel = Risk.high := by
    simp [convertAnalysis, serverDataOf, jsOrInt, hlvl]
  refine ⟨hlvl, hrisk, ?_⟩
  intro c
  simp [shouldEscalate, hrisk]

/-- Witness for the amended C1 at the concrete input "hearing voices". -/
theorem hallucination_crisis_path_witness :
    hasHallucinationIndicators (lowerStr "hearing voices") = true ∧
    (fallbackAnalysis "hearing voices" 0).anxietyLevel = 10 ∧
    shouldEscalate "hearing voices" (some (convertAnalysis (serverDataOf (fallbackAnalysis "hearing voices" 0)))) 0 = true := by
  have h : hasHallucinationIndicators (lowerStr "hearing voices") = true := by decide
  have hh := hallucination_crisis_path "hearing voices" 0 h
  exact ⟨h, hh.1, hh.2.2 0⟩

/-- Claim C2: the escalation gate fires exactly on a crisis keyword, a
high/critical latest tier, or a rolling count of at least 2; and a single
converted assessment with anxiety level 8 does not escalate when the count is
below 2 and the text has no crisis keyword, because level 8 derives tier
moderate. -/
theorem escalation_gate_spec (t : String) (latest : Option ClaudeAnalysis) (c : Nat) :
    (shouldEscalate t latest c = true ↔
      (hasCrisisKeyword t = true ∨
       (∃ a, latest = some a ∧ (a.crisisRiskLevel = Risk.high ∨ a.crisisRiskLevel = Risk.critical)) ∨
       2 ≤ c)) ∧
    (∀ data : ServerData, (convertAnalysis data).anxietyLevel = 8 →
      hasCrisisKeyword t = false → c < 2 →
      shouldEscalate t (some (convertAnalysis data)) c = false) := by
  constructor
  · cases latest with
    | none => simp [shouldEscalate]
    | some a =>
        simp [shouldEscalate]
        tauto
  · intro data h8 hkw hc
    have ha : jsOrInt data.anxietyLevel 5 = 8 := by
      simpa [convertAnalysis] using h8
    have hr : (convertAnalysis data).crisisRiskLevel = Risk.moderate := by
      simp [convertAnalysis, ha]
    have hc2 : ¬ (2 ≤ c) := by omega
    simp [shouldEscalate, hkw, hr, hc2]

/-- Witness for C2 at a level-8 assessment, a keyword-free text and count 0. -/
theorem escalation_gate_spec_witness :
    shouldEscalate "I am stretched thin today"
        (some (convertAnalysis ⟨none, some 8, none, none, none⟩)) 0 = false :=
  (escalation_gate_spec "I am stretched thin today" none 0).2
    ⟨none, some 8, none, none, none⟩ (by decide) (by decide) (by decide)

/-- Claim C4: the orchestrator always answers with a value, and whenever the
remote analysis fails — transport failure, rejected payload, short or generic
response — the answer is the fallback classifier result tagged fallback; so a
permanently failing remote client yields provenance fallback always. -/
theorem analyzeMessage_never_raises_and_falls_back
    (fetched : Except String ServerData) (fb : ClaudeAnalysis) :
    (∃ t, analyzeMessage fetched fb = Except.ok t) ∧
    (remoteFailed fetched = true →
      analyzeMessage fetched fb = Except.ok { analysis := fb, source := Provenance.fallback }) := by
  unfold analyzeMessage remoteFailed
  cases h : analyzeAnxietyWithClaude fetched with
  | error e =>
      exact ⟨⟨_, rfl⟩, fun _ => rfl⟩
  | ok a =>
      by_cases hv : a.personalizedResponse ≠ "" ∧ a.personalizedResponse ≠ genericPlaceholder
      · constructor
        · exact ⟨{ analysis := a, source := Provenance.claude }, by simp [hv]⟩
        · intro hf
          simp [beq_iff_eq] at hf
          tauto
      · constructor
        · exact ⟨{ analysis := fb, source := Provenance.fallback }, by simp [hv]⟩
        · intro hf
          simp [hv]

/-- Witness for C4: a transport failure answers with the fallback result
tagged fallback. -/
theorem analyzeMessage_never_raises_and_falls_back_witness :
    analyzeMessage (Except.error "network down")
        { anxietyLevel := 5, triggers := [], recommendedInterventions := [],
          crisisRiskLevel := Risk.low, escalationDetected := false,
          personalizedResponse := "Take one slow breath." } =
      Except.ok
        { analysis :=
            { anxietyLevel := 5, triggers := [], recommendedInterventions := [],
              crisisRiskLevel := Risk.low, escalationDetected := false,
              personalizedResponse := "Take one slow breath." }
          source := Provenance.fallback } :=
  (analyzeMessage_never_raises_and_falls_back (Except.error "network down") _).2 (by decide)

/-- Claim C8: an admitted submission appends exactly one user message for its
text, and an identical resubmission — while the first is in flight or right
after completion within the debounce window — is dropped without queueing. -/
theorem duplicate_text_appended_once (s : ChatState) (t reply : String)
    (hp : s.processing = false) (hl : s.lastMessage ≠ t)
    (hpend : s.pending.contains t = false) (ht : t ≠ "") (hq : s.queue = []) :
    userMsgCount t (submit s t).messages = userMsgCount t s.messages + 1 ∧
    submit (submit s t) t = submit s t ∧
    submit (complete (submit s t) reply) t = complete (submit s t) reply ∧
    userMsgCount t (complete (submit s t) reply).messages = userMsgCount t s.messages + 1 := by
  have hmem : t ∉ s.pending := by
    simpa using hpend
  have hsub : submit s t =
      { s with processing := true, lastMessage := t, pending := t :: s.pending,
               messages := s.messages ++ [{ sender := SenderKind.user, text := t }] } := by
    unfold submit
    simp [ht, hp, hl, hmem]
  have hcount : userMsgCount t (submit s t).messages = userMsgCount t s.messages + 1 := by
    rw [hsub]
    unfold userMsgCount
    simp [List.filter_append]
  refine ⟨hcount, ?_, ?_, ?_⟩
  · rw [hsub]
    unfold submit
    simp [ht]
  · rw [hsub]
    unfold complete
    simp [hq]
    unfold submit
    simp [ht]
  · rw [hsub]
    unfold complete userMsgCount
    simp [hq, List.filter_append]

/-- Witness for C8: resubmitting the same text while in flight changes
nothing. -/
theorem duplicate_text_appended_once_witness :
    submit (submit idleState "hello") "hello" = submit idleState "hello" :=
  (duplicate_text_appended_once idleState "hello" "hi" rfl (by decide) rfl (by decide) rfl).2.1

/-- Claim C9 is false as stated: the remote path forwards the payload level
without clamping, so a payload level of 12 produces an assessment outside
[1,10]. -/
theorem remote_level_unclamped_cex :
    analyzeAnxietyWithClaude (Except.ok ⟨none, some 12, none, none, some "Try one slow breath right now."⟩) =
      Except.ok (convertAnalysis ⟨none, some 12, none, none, some "Try one slow breath right now."⟩) ∧
    ¬ (convertAnalysis (⟨none, some 12, none, none, some "Try one slow breath right now."⟩ : ServerData)).anxietyLevel ≤ 10 := by
  constructor
  · rfl
  · decide

/-- Claim C9 (amended): every fallback assessment has level within [3,10] and
hence [1,10]; a remote assessment's level is the unclamped payload level
(5 when absent or zero); and in both cases a high or critical derived tier
implies level at least 8. -/
theorem assessment_level_invariant (msg : String) (r : Nat) (data : ServerData) :
    3 ≤ (fallbackAnalysis msg r).anxietyLevel ∧
    (fallbackAnalysis msg r).anxietyLevel ≤ 10 ∧
    (convertAnalysis data).anxietyLevel = jsOrInt data.anxietyLevel 5 ∧
    ((convertAnalysis data).crisisRiskLevel = Risk.high ∨
        (convertAnalysis data).crisisRiskLevel = Risk.critical →
      8 ≤ (convertAnalysis data).anxietyLevel) := by
  have hb := fallbackAnalysis_level_bounds msg r
  refine ⟨hb.1, hb.2, rfl, ?_⟩
  intro h
  simp only [convertAnalysis] at h ⊢
  by_cases h8 : (8 : Int) < jsOrInt data.anxietyLevel 5
  · omega
  · exfalso
    rcases h with h | h <;> simp only [if_neg h8] at h <;> split_ifs at h <;> simp_all

/-- Witness for the amended C9 at a payload of level 9, which derives tier
high. -/
theorem assessment_level_invariant_witness :
    8 ≤ (convertAnalysis (⟨none, some 9, none, none, none⟩ : ServerData)).anxietyLevel :=
  (assessment_level_invariant "hi" 0 ⟨none, some 9, none, none, none⟩).2.2.2 (Or.inl (by decide))

end Tranquiloo
